import Mathlib

/-!
Verification development for the cams-slideshow scheduler (`slideshow.py`).

The embedding models the scheduling/quality/fetch core of the program:

* `State`            — the persisted dataclass `State` (timestamps kept as the
                       raw strings the Python code stores);
* `JVal`/`State.save`/`State.load` — the JSON persistence layer;
* `is_good_night`    — the night-quality evaluator;
* `find_last_good_night` — the backward good-night search, with the remote
                       per-date listing (`get_station_dirs_for_date`) abstracted
                       as an oracle `ℤ → Snapshot`;
* `fetch_latest_dirs_all_stations` / `switch_latest_dir` — the fetch
                       orchestrator over a three-slot filesystem model;
* `check_time_and_run` — the daily check routine, over an environment that
                       supplies the probe result and the remote listings.

Conventions: Python `datetime` values are modelled by `PyDateTime` (a calendar
date as a day ordinal plus the second of day); `isoformat`/`fromisoformat`
stand in for the ISO-8601 rendering with a simpler but injective textual
format, which is adequate because the code never inspects the text beyond
parsing it back.  Python dicts are modelled as association lists with unique
keys; float division in the average test is modelled as exact division in `ℚ`
(over the realistic count ranges the comparison with the threshold agrees).
An escaped Python exception is modelled as `none`.
-/

/-- Python `dict` lookup `d[k]` / `k in d`, over an association list. -/
def dictGet {α : Type} : List (String × α) → String → Option α
  | [], _ => none
  | (k1, v1) :: rest, k => if k1 = k then some v1 else dictGet rest k

/-- Python `d.get(k, default)`. -/
def dictGetD {α : Type} (d : List (String × α)) (k : String) (v : α) : α :=
  (dictGet d k).getD v

/-- Python `d[k] = v`: replace the value at the first occurrence of `k`,
or append `(k, v)` when `k` is absent (dict insertion order). -/
def dictSet {α : Type} (d : List (String × α)) (k : String) (v : α) :
    List (String × α) :=
  match d with
  | [] => [(k, v)]
  | (k1, v1) :: rest =>
    if k1 = k then (k, v) :: rest else (k1, v1) :: dictSet rest k v

/-- Python `d.pop(k)` (unique keys: removes the first occurrence of `k`). -/
def dictErase {α : Type} (d : List (String × α)) (k : String) :
    List (String × α) :=
  match d with
  | [] => []
  | (k1, v1) :: rest =>
    if k1 = k then rest else (k1, v1) :: dictErase rest k

/-- A Python `datetime`: the calendar date as a day ordinal (so that
`timedelta(days = 1)` is `- 1` on `day`) and the second within the day.
`.date()` comparisons compare `day`; `.hour` is `sec / 3600`. -/
structure PyDateTime where
  day : ℤ
  sec : ℕ
deriving DecidableEq

/-- `datetime.hour`. -/
def PyDateTime.hour (d : PyDateTime) : ℕ := d.sec / 3600

/-- Absolute time in seconds, for `timedelta.total_seconds()`. -/
def PyDateTime.totalSec (d : PyDateTime) : ℤ := 86400 * d.day + (d.sec : ℤ)

/-- `datetime.isoformat()`: stands in for the ISO-8601 rendering with the
injective format `"<day>T<sec>"`. -/
def isoformat (d : PyDateTime) : String :=
  toString d.day ++ "T" ++ toString d.sec

/-- Decimal digit value of a character, if any. -/
def digitVal? (c : Char) : Option ℕ :=
  if c == '0' then some 0 else if c == '1' then some 1
  else if c == '2' then some 2 else if c == '3' then some 3
  else if c == '4' then some 4 else if c == '5' then some 5
  else if c == '6' then some 6 else if c == '7' then some 7
  else if c == '8' then some 8 else if c == '9' then some 9
  else none

/-- Parse a digit run into a natural number. -/
def parseNatAux : List Char → ℕ → Option ℕ
  | [], acc => some acc
  | c :: rest, acc =>
    match digitVal? c with
    | some d => parseNatAux rest (acc * 10 + d)
    | none => none

/-- Parse a non-empty digit run. -/
def parseNatChars (cs : List Char) : Option ℕ :=
  if cs.isEmpty then none else parseNatAux cs 0

/-- Parse an optionally `-`-signed digit run. -/
def parseIntChars : List Char → Option ℤ
  | '-' :: rest => (parseNatChars rest).map (fun n => -(n : ℤ))
  | cs => (parseNatChars cs).map (fun n => (n : ℤ))

/-- Split a character list at the first `'T'`. -/
def splitOnceT : List Char → Option (List Char × List Char)
  | [] => none
  | c :: rest =>
    if c == 'T' then some ([], rest)
    else (splitOnceT rest).map (fun p => (c :: p.1, p.2))

/-- `datetime.fromisoformat`: partial inverse of `isoformat`; `none` models
the `ValueError` Python raises on a malformed string. -/
def fromisoformat (s : String) : Option PyDateTime :=
  match splitOnceT s.data with
  | some (a, b) =>
    match parseIntChars a, parseNatChars b with
    | some da, some sb => some { day := da, sec := sb }
    | _, _ => none
  | none => none

/-- The persisted `State` dataclass.  Timestamp fields hold the raw strings
the Python code stores (`''` is the "never" sentinel); field defaults are the
dataclass defaults. -/
structure State where
  last_dirs : List (String × String) := []
  last_switch : String := ""
  last_check : String := ""
  last_server_check : String := ""
  image_dir : String := "current"
  active_stations : List String := []
deriving DecidableEq

/-- JSON values, as far as the state file needs them. -/
inductive JVal where
  | str (s : String)
  | obj (fields : List (String × JVal))
  | arr (elems : List JVal)

/-- `State.save`: `json.dump(asdict(self))` — the fields in dataclass order. -/
def State.save (s : State) : JVal :=
  JVal.obj
    [("last_dirs", JVal.obj (s.last_dirs.map (fun p => (p.1, JVal.str p.2)))),
     ("last_switch", JVal.str s.last_switch),
     ("last_check", JVal.str s.last_check),
     ("last_server_check", JVal.str s.last_server_check),
     ("image_dir", JVal.str s.image_dir),
     ("active_stations", JVal.arr (s.active_stations.map JVal.str))]

/-- Decode a JSON string (the loader's use of a string-typed field). -/
def decodeStr : JVal → Option String
  | JVal.str s => some s
  | _ => none

/-- Decode an object's entries as string values, keeping the keys. -/
def decodeDirList : List (String × JVal) → Option (List (String × String))
  | [] => some []
  | p :: rest =>
    match decodeStr p.2 with
    | some s => (decodeDirList rest).map (fun l => (p.1, s) :: l)
    | none => none

def decodeDirs : JVal → Option (List (String × String))
  | JVal.obj fs => decodeDirList fs
  | _ => none

/-- Decode an array of strings. -/
def decodeStrList : List JVal → Option (List String)
  | [] => some []
  | v :: rest =>
    match decodeStr v with
    | some s => (decodeStrList rest).map (fun l => s :: l)
    | none => none

def decodeStations : JVal → Option (List String)
  | JVal.arr es => decodeStrList es
  | _ => none

/-- The field names of the `State` dataclass (`cls(**data)` accepts exactly
these keys). -/
def State.fieldNames : List String :=
  ["last_dirs", "last_switch", "last_check", "last_server_check",
   "image_dir", "active_stations"]

/-- One field of `cls(**data)`: decode the value stored under `k`, or take
the dataclass default when the key is absent. -/
def loadField {α : Type} (d : List (String × JVal)) (k : String)
    (dec : JVal → Option α) (dflt : α) : Option α :=
  match dictGet d k with
  | some v => dec v
  | none => some dflt

/-- `if k not in data: data[k] = v` (Python's `dict.setdefault`). -/
def setDefault (d : List (String × JVal)) (k : String) (v : JVal) :
    List (String × JVal) :=
  if (dictGet d k).isNone then dictSet d k v else d

/-- The legacy migration: `if 'last_dir' in data and 'last_dirs' not in data:
data['last_dirs'] = {'default': data.pop('last_dir')}`. -/
def migrateLastDir (d : List (String × JVal)) : List (String × JVal) :=
  match dictGet d "last_dir", dictGet d "last_dirs" with
  | some v, none =>
    dictSet (dictErase d "last_dir") "last_dirs" (JVal.obj [("default", v)])
  | _, _ => d

/-- `State.load`: read the JSON object, migrate the legacy `last_dir` field,
default-fill `last_dirs` / `active_stations` / `last_check` /
`last_server_check`, drop the deprecated `last_good_night_check`, and build
the dataclass (`cls(**data)`; keys not naming a field raise `TypeError`,
missing fields take the dataclass defaults).  `none` models a raised
exception.  Python's `cls(**data)` does not validate value types; this
embedding additionally rejects ill-typed values, which no claim exercises. -/
def State.load (j : JVal) : Option State :=
  match j with
  | JVal.obj data0 =>
    -- migrate last_dir → last_dirs = {'default': last_dir}
    let data1 := migrateLastDir data0
    -- defaults for missing fields
    let data2 := setDefault data1 "last_dirs" (JVal.obj [])
    let data3 := setDefault data2 "active_stations" (JVal.arr [])
    let data4 := setDefault data3 "last_check" (JVal.str "")
    let data5 := setDefault data4 "last_server_check" (JVal.str "")
    -- drop the deprecated field
    let data6 := dictErase data5 "last_good_night_check"
    if data6.all (fun p => State.fieldNames.contains p.1) then do
      let ld ← loadField data6 "last_dirs" decodeDirs []
      let lsw ← loadField data6 "last_switch" decodeStr ""
      let lc ← loadField data6 "last_check" decodeStr ""
      let lsc ← loadField data6 "last_server_check" decodeStr ""
      let idir ← loadField data6 "image_dir" decodeStr "current"
      let acts ← loadField data6 "active_stations" decodeStations []
      some { last_dirs := ld, last_switch := lsw, last_check := lc,
             last_server_check := lsc, image_dir := idir,
             active_stations := acts }
    else none
  | _ => none

/-- Per-station record held in a snapshot: `{'directory': …, 'fits_count': …}`. -/
structure StationInfo where
  directory : String
  fits_count : ℕ
deriving DecidableEq

/-- A `StationSnapshot`: station ↦ {directory, fits_count}, a Python dict in
insertion order. -/
def Snapshot : Type := List (String × StationInfo)

instance : DecidableEq Snapshot := by
  unfold Snapshot; infer_instance

/-- `{station: info['fits_count'] for station, info in station_dirs.items()}`. -/
def fitsCounts (snap : Snapshot) : List (String × ℕ) :=
  snap.map (fun p => (p.1, p.2.fits_count))

/-- `MIN_FITS_THRESHOLD = 5`. -/
def MIN_FITS_THRESHOLD : ℕ := 5

/-- `is_good_night`: empty dict is false; otherwise compare the average FITS
count (float division, modelled exactly in `ℚ`) against the threshold. -/
def is_good_night (station_fits_counts : List (String × ℕ)) : Bool :=
  if station_fits_counts.isEmpty then
    false
  else
    let total_fits := (station_fits_counts.map Prod.snd).sum
    let num_stations := station_fits_counts.length
    let average_fits : ℚ := (total_fits : ℚ) / (num_stations : ℚ)
    decide ((MIN_FITS_THRESHOLD : ℚ) ≤ average_fits)

/-- The starting date of `find_last_good_night`'s backward walk: yesterday
when no (or an unparseable) reference is given, otherwise
`max(last_checked.date(), yesterday)`. -/
def flgnStart (last_checked_date : String) (now : PyDateTime) : ℤ :=
  if last_checked_date ≠ "" then
    match fromisoformat last_checked_date with
    | some last_checked => max last_checked.day (now.day - 1)
    | none => now.day - 1
  else
    now.day - 1

/-- The `for days_back in range(0, max_days_back)` loop of
`find_last_good_night`: skip dates with no data, return the first snapshot
the evaluator accepts, empty when the window is exhausted.  `fuel` is the
number of loop iterations left. -/
def flgnGo (dirsForDate : ℤ → Snapshot) (start : ℤ) :
    (daysBack : ℕ) → (fuel : ℕ) → Snapshot
  | _, 0 => []
  | daysBack, fuel + 1 =>
    let station_dirs := dirsForDate (start - (daysBack : ℤ))
    if station_dirs.isEmpty then
      flgnGo dirsForDate start (daysBack + 1) fuel
    else if is_good_night (fitsCounts station_dirs) then
      station_dirs
    else
      flgnGo dirsForDate start (daysBack + 1) fuel

/-- `max_days_back = 30`. -/
def MAX_DAYS_BACK : ℕ := 30

/-- `find_last_good_night(last_checked_date, state)`: the remote per-date
query `get_station_dirs_for_date` (SSH listing plus per-station FITS
counting, failures folded into the per-station results) is abstracted as the
oracle `dirsForDate`, keyed by the day ordinal of the candidate date. -/
def find_last_good_night (last_checked_date : String)
    (dirsForDate : ℤ → Snapshot) (now : PyDateTime) : Snapshot :=
  flgnGo dirsForDate (flgnStart last_checked_date now) 0 MAX_DAYS_BACK

/-- The three fixed filesystem slots: staging (`latest`), active (`current`)
and one-generation backup (`current_old`).  A slot is `none` when the
directory does not exist; its contents record, per station subdirectory, the
remote directory rsynced into it (`none` while only `os.makedirs` ran). -/
structure Fs where
  latest : Option (List (String × Option String))
  current : Option (List (String × Option String))
  current_old : Option (List (String × Option String))
deriving DecidableEq

/-- `shutil.rmtree('current_old', ignore_errors=True)`. -/
def rmStale (fs : Fs) : Fs :=
  { fs with current_old := none }

/-- `if os.path.exists('current'): os.rename('current', 'current_old')`. -/
def backupCurrent (fs : Fs) : Fs :=
  if fs.current.isSome then
    { fs with current_old := fs.current, current := none }
  else
    fs

/-- `os.rename('latest', 'current')` (its callers guarantee `latest`
exists). -/
def promoteStaging (fs : Fs) : Fs :=
  { fs with current := fs.latest, latest := none }

/-- `switch_latest_dir`: the three-step promotion, in source order. -/
def switch_latest_dir (fs : Fs) : Fs :=
  promoteStaging (backupCurrent (rmStale fs))

/-- `os.makedirs('latest', exist_ok=True)`. -/
def mkdirLatest (fs : Fs) : Fs :=
  { fs with latest := some (fs.latest.getD []) }

/-- One iteration of the fetch loop for station `p`: create the station
subdirectory, then rsync (`rsyncOk` tells whether the transfer succeeds; on
failure the station is logged and excluded from the total). -/
def fetchStep (rsyncOk : String → Bool) (acc : ℕ × Fs)
    (p : String × StationInfo) : ℕ × Fs :=
  let stage := acc.2.latest.getD []
  -- os.makedirs(station_dir, exist_ok=True)
  let stage1 := if (dictGet stage p.1).isSome then stage else stage ++ [(p.1, none)]
  if rsyncOk p.1 then
    (acc.1 + p.2.fits_count,
     { acc.2 with latest := some (dictSet stage1 p.1 (some p.2.directory)) })
  else
    (acc.1, { acc.2 with latest := some stage1 })

/-- The staging part of `fetch_latest_dirs_all_stations`: `os.makedirs` plus
the per-station transfer loop, before any promotion. -/
def fetchStaged (rsyncOk : String → Bool) (station_dirs : Snapshot)
    (fs : Fs) : ℕ × Fs :=
  station_dirs.foldl (fetchStep rsyncOk) (0, mkdirLatest fs)

/-- `fetch_latest_dirs_all_stations`: transfer every station of the snapshot
into the staging slot, then promote via `switch_latest_dir` iff the
accumulated total is positive.  Returns `total_fits` and the filesystem. -/
def fetch_latest_dirs_all_stations (rsyncOk : String → Bool)
    (station_dirs : Snapshot) (fs : Fs) : ℕ × Fs :=
  let acc := fetchStaged rsyncOk station_dirs fs
  if 0 < acc.1 then (acc.1, switch_latest_dir acc.2) else acc

/-- `is_time_for_updating(last_check)`: `''` means yes; otherwise parse and
answer whether the stored date is not today's date.  `none` models the
uncaught `ValueError` on a malformed string. -/
def is_time_for_updating (last_check : String) (now : PyDateTime) :
    Option Bool :=
  if last_check = "" then
    some true
  else
    (fromisoformat last_check).map (fun d => !(d.day == now.day))

/-- `is_time_for_server_check(last_server_check)`: `''` means yes; otherwise
at least one hour (3600 s) must have elapsed. -/
def is_time_for_server_check (last_server_check : String) (now : PyDateTime) :
    Option Bool :=
  if last_server_check = "" then
    some true
  else
    (fromisoformat last_server_check).map
      (fun d => decide (3600 ≤ now.totalSec - d.totalSec))

/-- Which externally visible actions a `check_time_and_run` invocation
performed. -/
structure Effects where
  timeGatePassed : Bool
  probeAttempted : Bool
  dirListing : Bool
  fetchCalled : Bool
  promoted : Bool
  saved : Bool
deriving DecidableEq

/-- No actions performed (an early return). -/
def noEffects : Effects :=
  { timeGatePassed := false, probeAttempted := false, dirListing := false,
    fetchCalled := false, promoted := false, saved := false }

/-- The external world of one check: the clock, the probe's verdict
(`is_server_available`), the two remote listings, and per-station rsync
outcomes. -/
structure Env where
  now : PyDateTime
  serverAvailable : Bool
  dirsForDate : ℤ → Snapshot
  latestDirs : Snapshot
  rsyncOk : String → Bool

/-- The candidate snapshot a run decides on: the good-night search seeded
with `last_check`, falling back to `get_latest_dirs_all_stations` (abstracted
as `env.latestDirs`) when it comes back empty. -/
def candidateSnapshot (env : Env) (s : State) : Snapshot :=
  let dirs0 := find_last_good_night s.last_check env.dirsForDate env.now
  if dirs0.isEmpty then env.latestDirs else dirs0

/-- `has_new_images`: some station's candidate directory differs from
`state.last_dirs.get(station, '')`. -/
def noveltyB (env : Env) (s : State) : Bool :=
  (candidateSnapshot env s).any
    (fun p => !(p.2.directory == dictGetD s.last_dirs p.1 ""))

/-- `is_good`: the quality evaluator on the candidate snapshot's counts. -/
def qualityB (env : Env) (s : State) : Bool :=
  is_good_night (fitsCounts (candidateSnapshot env s))

/-- `check_time_and_run(state)`.  Result: the effects performed, and — unless
an exception escaped (`none`, possible only from the two `fromisoformat`
calls that sit outside the `try`) — the returned boolean with the final state
and filesystem.  The body follows the source: hour gate, day gate (the
source evaluates `is_time_for_updating` a second time in the `if` of line
720, with the same result), optional availability probe stamping
`last_server_check`, no-op save-and-return on probe failure, good-night
search with latest-directories fallback, `last_check` update, novelty and
quality evaluation, the fetch decision
`(has_new_images and is_good) or not state.active_stations`, state updates
after a fetch, save, and the return value `has_new_images and is_good`.
Inside the `try` every remote failure is already folded into `Env`, so no
exception is modelled there. -/
def check_time_and_run (env : Env) (s : State) (fs : Fs) :
    Effects × Option (Bool × State × Fs) :=
  let now := env.now
  if now.hour < 9 then
    (noEffects, some (false, s, fs))
  else
    match is_time_for_updating s.last_check now with
    | none => (noEffects, none)
    | some upd =>
      if !upd then
        (noEffects, some (false, s, fs))
      else if decide (9 ≤ now.hour) && upd then
        match is_time_for_server_check s.last_server_check now with
        | none => ({ noEffects with timeGatePassed := true }, none)
        | some stc =>
          let server_available := if stc then env.serverAvailable else true
          let s1 := if stc then { s with last_server_check := isoformat now } else s
          if server_available then
            let station_dirs := candidateSnapshot env s1
            let s2 := { s1 with last_check := isoformat now }
            let has_new_images := station_dirs.any
              (fun p => !(p.2.directory == dictGetD s2.last_dirs p.1 ""))
            let is_good := is_good_night (fitsCounts station_dirs)
            let should_fetch := (has_new_images && is_good) || s2.active_stations.isEmpty
            if should_fetch then
              let res := fetch_latest_dirs_all_stations env.rsyncOk station_dirs fs
              let s3 := { s2 with
                last_switch := s2.last_check,
                active_stations := station_dirs.map Prod.fst,
                last_dirs := station_dirs.foldl
                  (fun d p => dictSet d p.1 p.2.directory) s2.last_dirs }
              ({ timeGatePassed := true, probeAttempted := stc,
                 dirListing := true, fetchCalled := true,
                 promoted := decide (0 < res.1), saved := true },
               some (has_new_images && is_good, s3, res.2))
            else
              ({ timeGatePassed := true, probeAttempted := stc,
                 dirListing := true, fetchCalled := false,
                 promoted := false, saved := true },
               some (has_new_images && is_good, s2, fs))
          else
            ({ timeGatePassed := true, probeAttempted := stc,
               dirListing := false, fetchCalled := false,
               promoted := false, saved := true },
             some (false, s1, fs))
      else
        (noEffects, some (false, s, fs))

/-- Whether the search window position `k` (days back from `start`) is a hit:
the date has data from some station and the evaluator accepts its counts. -/
def flgnHitB (f : ℤ → Snapshot) (start : ℤ) (k : ℕ) : Bool :=
  !(f (start - (k : ℤ))).isEmpty &&
    is_good_night (fitsCounts (f (start - (k : ℤ))))

/-- Modelled from the spec's words, for comparison with `flgnStart` (the
claim says the walk starts at the later of yesterday and the day AFTER the
reference date). -/
def flgnStartClaim (last_checked_date : String) (now : PyDateTime) : ℤ :=
  if last_checked_date ≠ "" then
    match fromisoformat last_checked_date with
    | some last_checked => max (last_checked.day + 1) (now.day - 1)
    | none => now.day - 1
  else
    now.day - 1

/-- Prepend a state-file entry that is present, or nothing when absent. -/
def optEntry (k : String) : Option JVal → List (String × JVal) → List (String × JVal)
  | some v, rest => (k, v) :: rest
  | none, rest => rest

/-- Concrete snapshot: one station, a good night (6 ≥ 5). -/
def goodSnap : Snapshot :=
  [("BE000D", { directory := "BE000D_20250804", fits_count := 6 })]

/-- Oracle with data only three days before the walk's start (day 9):
the spec's "only day T-3 passes" scenario. -/
def oracleT3 : ℤ → Snapshot :=
  fun d => if d = 6 then goodSnap else []

/-- Oracle with data only on day 10 ("today" in the C4 scenario). -/
def oracleToday : ℤ → Snapshot :=
  fun d => if d = 10 then goodSnap else []

/-- Every rsync succeeds. -/
def rsyncAll : String → Bool := fun _ => true

/-- Every rsync fails. -/
def rsyncNone : String → Bool := fun _ => false

/-- A concrete starting filesystem: an active set, no staging, no backup. -/
def fs0 : Fs :=
  { latest := none, current := some [("BE000D", some "prev")],
    current_old := none }

/-- Concrete happy-path environment: 10:00 on day 10, server reachable,
good-night search hits yesterday (day 9), transfers succeed. -/
def envA : Env :=
  { now := { day := 10, sec := 36000 }, serverAvailable := true,
    dirsForDate := fun d => if d = 9 then goodSnap else [],
    latestDirs := [], rsyncOk := rsyncAll }

/-- Concrete state: one active station whose last directory differs from the
candidate. -/
def stateA : State :=
  { last_dirs := [("BE000D", "old")], active_stations := ["BE000D"] }

/-- C1 counterexample environment: like `envA` but every transfer fails. -/
def envC1 : Env :=
  { now := { day := 10, sec := 36000 }, serverAvailable := true,
    dirsForDate := fun d => if d = 9 then goodSnap else [],
    latestDirs := [], rsyncOk := rsyncNone }

/-- C1 counterexample state: first run (no active stations) with a stale
`last_dirs` entry. -/
def stateC1 : State :=
  { last_dirs := [("BE000D", "old")], active_stations := [] }

/-- Environment whose availability probe fails. -/
def envProbeFail : Env :=
  { now := { day := 10, sec := 36000 }, serverAvailable := false,
    dirsForDate := fun _ => [], latestDirs := [], rsyncOk := rsyncAll }

/-- Environment at 08:00 (before the hour-of-day threshold). -/
def envEarly : Env :=
  { now := { day := 10, sec := 28800 }, serverAvailable := true,
    dirsForDate := fun _ => [], latestDirs := [], rsyncOk := rsyncAll }

/-- State whose `last_check` is on the current day (day 10). -/
def stateToday : State :=
  { last_dirs := [("BE000D", "old")], last_check := "10T0",
    active_stations := ["BE000D"] }

/-- State whose `last_check` is on the previous day (day 9). -/
def stateYesterday : State :=
  { last_dirs := [("BE000D", "old")], last_check := "9T0",
    active_stations := ["BE000D"] }

/-- The evaluator's float comparison `total/num >= threshold`, restated
multiplicatively (exact over `ℚ`; used to evaluate concrete runs). -/
theorem is_good_night_eq (c : List (String × ℕ)) :
    is_good_night c =
      (!c.isEmpty &&
        decide (MIN_FITS_THRESHOLD * c.length ≤ (c.map Prod.snd).sum)) := by
  rcases c with _ | ⟨p, rest⟩
  · rfl
  · have hlen : (0 : ℚ) < ((p :: rest).length : ℚ) := by
      exact_mod_cast Nat.succ_pos rest.length
    rw [is_good_night]
    rw [if_neg (by simp)]
    rw [show (p :: rest).isEmpty = false from rfl]
    simp only [Bool.not_false, Bool.true_and]
    rw [decide_eq_decide, le_div_iff₀ hlen]
    norm_cast

theorem decodeStrList_encode (l : List String) :
    decodeStrList (l.map JVal.str) = some l := by
  induction l with
  | nil => rfl
  | cons s rest ih => simp [decodeStrList, decodeStr, ih]

theorem decodeDirList_encode (l : List (String × String)) :
    decodeDirList (l.map (fun p => (p.1, JVal.str p.2))) = some l := by
  induction l with
  | nil => rfl
  | cons p rest ih => simp [decodeDirList, decodeStr, ih]

/-- C3: for every non-empty station → count mapping, `is_good_night` answers
true exactly when the arithmetic mean of all counts (zero counts included)
is at least the fixed threshold 5; on the empty mapping it answers false. -/
theorem is_good_night_mean_threshold (counts : List (String × ℕ)) :
    (counts = [] → is_good_night counts = false) ∧
    (counts ≠ [] →
      (is_good_night counts = true ↔
        (5 : ℚ) ≤ ((counts.map Prod.snd).sum : ℚ) / (counts.length : ℚ))) := by
  constructor
  · rintro rfl; rfl
  · intro h
    rcases counts with _ | ⟨p, rest⟩
    · exact absurd rfl h
    · have hlen : (0 : ℚ) < ((p :: rest).length : ℚ) := by
        exact_mod_cast Nat.succ_pos rest.length
      rw [is_good_night_eq, show (p :: rest).isEmpty = false from rfl]
      simp only [Bool.not_false, Bool.true_and, decide_eq_true_eq]
      rw [le_div_iff₀ hlen]
      norm_cast

theorem is_good_night_mean_threshold_witness :
    is_good_night [("A", 5), ("B", 5)] = true ∧
    is_good_night [("A", 9), ("B", 0)] = false ∧
    is_good_night ([] : List (String × ℕ)) = false := by
  refine ⟨?_, ?_, (is_good_night_mean_threshold []).1 rfl⟩
  · exact ((is_good_night_mean_threshold [("A", 5), ("B", 5)]).2
      (by simp)).mpr (by norm_num)
  · have h := (is_good_night_mean_threshold [("A", 9), ("B", 0)]).2 (by simp)
    rcases Bool.eq_false_or_eq_true (is_good_night [("A", 9), ("B", 0)]) with
      ht | hf
    · exact absurd (h.mp ht) (by norm_num)
    · exact hf

/-- C10: saving a `State` and loading the result returns the identical
`State` (save/load round-trip on the current schema). -/
theorem State_save_load_roundtrip (s : State) :
    State.load (State.save s) = some s := by
  simp [State.load, State.save, loadField, migrateLastDir, setDefault,
    dictGet, dictErase, State.fieldNames, decodeStr, decodeDirs,
    decodeStations, decodeStrList_encode, decodeDirList_encode]
theorem dictGet_dictSet_self {α : Type} (d : List (String × α)) (k : String)
    (v : α) : dictGet (dictSet d k v) k = some v := by
  induction d with
  | nil => simp [dictSet, dictGet]
  | cons p rest ih =>
    obtain ⟨k1, v1⟩ := p
    by_cases h : k1 = k
    · simp [dictSet, dictGet, h]
    · simp [dictSet, dictGet, h, ih]

theorem dictGet_dictSet_ne {α : Type} (d : List (String × α)) (k k' : String)
    (v : α) (h : k ≠ k') : dictGet (dictSet d k v) k' = dictGet d k' := by
  have h' : ¬(k = k') := h
  induction d with
  | nil => simp [dictSet, dictGet, h']
  | cons p rest ih =>
    obtain ⟨k1, v1⟩ := p
    by_cases h1 : k1 = k
    · subst h1
      simp [dictSet, dictGet, h']
    · by_cases h2 : k1 = k'
      · simp [dictSet, dictGet, h1, h2, Ne.symm h]
      · simp [dictSet, dictGet, h1, h2, ih]

theorem dictGet_dictErase_ne {α : Type} (d : List (String × α)) (k k' : String)
    (h : k ≠ k') : dictGet (dictErase d k) k' = dictGet d k' := by
  induction d with
  | nil => simp [dictErase, dictGet]
  | cons p rest ih =>
    obtain ⟨k1, v1⟩ := p
    by_cases h1 : k1 = k
    · subst h1
      simp [dictErase, dictGet, h, Ne.symm h, ih]
    · by_cases h2 : k1 = k'
      · simp [dictErase, dictGet, h1, h2, Ne.symm h]
      · simp [dictErase, dictGet, h1, h2, ih]

theorem dictGet_setDefault_self (d : List (String × JVal)) (k : String)
    (v : JVal) : dictGet (setDefault d k v) k = some ((dictGet d k).getD v) := by
  unfold setDefault
  cases h : dictGet d k <;> simp [h, dictGet_dictSet_self]

theorem dictGet_setDefault_ne (d : List (String × JVal)) (k k' : String)
    (v : JVal) (h : k ≠ k') :
    dictGet (setDefault d k v) k' = dictGet d k' := by
  unfold setDefault
  split <;> simp [dictGet_dictSet_ne _ _ _ _ h]

theorem mem_dictSet {α : Type} {d : List (String × α)} {k : String} {v : α}
    {p : String × α} (hp : p ∈ dictSet d k v) : p = (k, v) ∨ p ∈ d := by
  induction d with
  | nil =>
    simp [dictSet] at hp
    exact Or.inl hp
  | cons q rest ih =>
    obtain ⟨k1, v1⟩ := q
    by_cases h1 : k1 = k
    · rw [dictSet, if_pos h1] at hp
      rcases List.mem_cons.mp hp with h | h
      · exact Or.inl h
      · exact Or.inr (List.mem_cons_of_mem _ h)
    · rw [dictSet, if_neg h1] at hp
      rcases List.mem_cons.mp hp with h | h
      · exact Or.inr (h ▸ List.mem_cons_self _ _)
      · rcases ih h with h' | h'
        · exact Or.inl h'
        · exact Or.inr (List.mem_cons_of_mem _ h')

theorem mem_dictErase {α : Type} {d : List (String × α)} {k : String}
    {p : String × α} (hp : p ∈ dictErase d k) : p ∈ d := by
  induction d with
  | nil => simp [dictErase] at hp
  | cons q rest ih =>
    obtain ⟨k1, v1⟩ := q
    by_cases h1 : k1 = k
    · rw [dictErase, if_pos h1] at hp
      exact List.mem_cons_of_mem _ hp
    · rw [dictErase, if_neg h1] at hp
      rcases List.mem_cons.mp hp with h | h
      · exact h ▸ List.mem_cons_self _ _
      · exact List.mem_cons_of_mem _ (ih h)

theorem mem_dictErase_key_ne {α : Type} {d : List (String × α)} {k : String}
    (hnd : (d.map Prod.fst).Nodup) {p : String × α} (hp : p ∈ dictErase d k) :
    p ∈ d ∧ p.1 ≠ k := by
  induction d with
  | nil => simp [dictErase] at hp
  | cons q rest ih =>
    obtain ⟨k1, v1⟩ := q
    simp only [List.map_cons, List.nodup_cons] at hnd
    by_cases h1 : k1 = k
    · subst h1
      rw [dictErase, if_pos rfl] at hp
      refine ⟨List.mem_cons_of_mem _ hp, ?_⟩
      intro hk
      exact hnd.1 (hk ▸ List.mem_map_of_mem Prod.fst hp)
    · rw [dictErase, if_neg h1] at hp
      rcases List.mem_cons.mp hp with h | h
      · subst h
        exact ⟨List.mem_cons_self _ _, h1⟩
      · rcases ih hnd.2 h with ⟨h2, h3⟩
        exact ⟨List.mem_cons_of_mem _ h2, h3⟩

theorem mem_setDefault {d : List (String × JVal)} {k : String} {v : JVal}
    {p : String × JVal} (hp : p ∈ setDefault d k v) : p = (k, v) ∨ p ∈ d := by
  unfold setDefault at hp
  split at hp
  · exact mem_dictSet hp
  · exact Or.inr hp

theorem State_load_char (data : List (String × JVal)) (x : String)
    (lsw lc lsc idir : Option String) (acts : Option (List String))
    (hnodup : (data.map Prod.fst).Nodup)
    (hkeys : ∀ p ∈ data, p.1 = "last_dir" ∨ p.1 ∈ State.fieldNames)
    (hx : dictGet data "last_dir" = some (JVal.str x))
    (hnd : dictGet data "last_dirs" = none)
    (hsw : dictGet data "last_switch" = lsw.map JVal.str)
    (hlc : dictGet data "last_check" = lc.map JVal.str)
    (hlsc : dictGet data "last_server_check" = lsc.map JVal.str)
    (hid : dictGet data "image_dir" = idir.map JVal.str)
    (hacts : dictGet data "active_stations" =
      acts.map (fun l => JVal.arr (l.map JVal.str))) :
    State.load (JVal.obj data) =
      some { last_dirs := [("default", x)],
             last_switch := lsw.getD "",
             last_check := lc.getD "",
             last_server_check := lsc.getD "",
             image_dir := idir.getD "current",
             active_stations := acts.getD [] } := by
  have hmig : migrateLastDir data =
      dictSet (dictErase data "last_dir") "last_dirs"
        (JVal.obj [("default", JVal.str x)]) := by
    unfold migrateLastDir
    rw [hx, hnd]
  set dM := dictSet (dictErase data "last_dir") "last_dirs"
    (JVal.obj [("default", JVal.str x)]) with hdM
  -- lookups in dM
  have hdm_dirs : dictGet dM "last_dirs" =
      some (JVal.obj [("default", JVal.str x)]) := dictGet_dictSet_self _ _ _
  have hdm (k : String) (hk1 : k ≠ "last_dirs") (hk2 : k ≠ "last_dir") :
      dictGet dM k = dictGet data k := by
    rw [hdM, dictGet_dictSet_ne _ _ _ _ (Ne.symm hk1),
      dictGet_dictErase_ne _ _ _ (Ne.symm hk2)]
  have h2 : setDefault dM "last_dirs" (JVal.obj []) = dM := by
    unfold setDefault
    rw [hdm_dirs]
    rfl
  set d3 := setDefault dM "active_stations" (JVal.arr []) with hd3
  set d4 := setDefault d3 "last_check" (JVal.str "") with hd4
  set d5 := setDefault d4 "last_server_check" (JVal.str "") with hd5
  set d6 := dictErase d5 "last_good_night_check" with hd6
  -- lookups in d6
  have g6 (k : String) (h1 : k ≠ "last_good_night_check") :
      dictGet d6 k = dictGet d5 k := dictGet_dictErase_ne _ _ _ (Ne.symm h1)
  have e_dirs : dictGet d6 "last_dirs" =
      some (JVal.obj [("default", JVal.str x)]) := by
    rw [g6 _ (by decide), hd5, dictGet_setDefault_ne _ _ _ _ (by decide),
      hd4, dictGet_setDefault_ne _ _ _ _ (by decide),
      hd3, dictGet_setDefault_ne _ _ _ _ (by decide), hdm_dirs]
  have e_sw : dictGet d6 "last_switch" = lsw.map JVal.str := by
    rw [g6 _ (by decide), hd5, dictGet_setDefault_ne _ _ _ _ (by decide),
      hd4, dictGet_setDefault_ne _ _ _ _ (by decide),
      hd3, dictGet_setDefault_ne _ _ _ _ (by decide),
      hdm _ (by decide) (by decide), hsw]
  have e_lc : dictGet d6 "last_check" =
      some ((lc.map JVal.str).getD (JVal.str "")) := by
    rw [g6 _ (by decide), hd5, dictGet_setDefault_ne _ _ _ _ (by decide),
      hd4, dictGet_setDefault_self]
    rw [hd3, dictGet_setDefault_ne _ _ _ _ (by decide),
      hdm _ (by decide) (by decide), hlc]
  have e_lsc : dictGet d6 "last_server_check" =
      some ((lsc.map JVal.str).getD (JVal.str "")) := by
    rw [g6 _ (by decide), hd5, dictGet_setDefault_self]
    rw [hd4, dictGet_setDefault_ne _ _ _ _ (by decide),
      hd3, dictGet_setDefault_ne _ _ _ _ (by decide),
      hdm _ (by decide) (by decide), hlsc]
  have e_id : dictGet d6 "image_dir" = idir.map JVal.str := by
    rw [g6 _ (by decide), hd5, dictGet_setDefault_ne _ _ _ _ (by decide),
      hd4, dictGet_setDefault_ne _ _ _ _ (by decide),
      hd3, dictGet_setDefault_ne _ _ _ _ (by decide),
      hdm _ (by decide) (by decide), hid]
  have e_acts : dictGet d6 "active_stations" =
      some ((acts.map (fun l => JVal.arr (l.map JVal.str))).getD
        (JVal.arr [])) := by
    rw [g6 _ (by decide), hd5, dictGet_setDefault_ne _ _ _ _ (by decide),
      hd4, dictGet_setDefault_ne _ _ _ _ (by decide),
      hd3, dictGet_setDefault_self, hdm _ (by decide) (by decide), hacts]
  -- the key check of cls(**data)
  have hall : d6.all (fun p => State.fieldNames.contains p.1) = true := by
    rw [List.all_eq_true]
    intro p hp
    have hp5 : p ∈ d5 := mem_dictErase hp
    have hp4 : p = ("last_server_check", JVal.str "") ∨ p ∈ d4 :=
      mem_setDefault hp5
    have hfield : p.1 ∈ State.fieldNames := by
      rcases hp4 with h | hp4
      · rw [h]; simp [State.fieldNames]
      rcases mem_setDefault hp4 with h | hp3
      · rw [h]; simp [State.fieldNames]
      rcases mem_setDefault hp3 with h | hpM
      · rw [h]; simp [State.fieldNames]
      rcases mem_dictSet (hdM ▸ hpM) with h | hpE
      · rw [h]; simp [State.fieldNames]
      rcases mem_dictErase_key_ne hnodup hpE with ⟨hpd, hne⟩
      rcases hkeys p hpd with h | h
      · exact absurd h hne
      · exact h
    simpa using hfield
  -- per-field results of cls(**data)
  have f_dirs : loadField d6 "last_dirs" decodeDirs [] =
      some [("default", x)] := by
    unfold loadField
    rw [e_dirs]
    rfl
  have f_sw : loadField d6 "last_switch" decodeStr "" =
      some (lsw.getD "") := by
    unfold loadField
    rw [e_sw]
    cases lsw <;> rfl
  have f_lc : loadField d6 "last_check" decodeStr "" = some (lc.getD "") := by
    unfold loadField
    rw [e_lc]
    cases lc <;> rfl
  have f_lsc : loadField d6 "last_server_check" decodeStr "" =
      some (lsc.getD "") := by
    unfold loadField
    rw [e_lsc]
    cases lsc <;> rfl
  have f_id : loadField d6 "image_dir" decodeStr "current" =
      some (idir.getD "current") := by
    unfold loadField
    rw [e_id]
    cases idir <;> rfl
  have f_acts : loadField d6 "active_stations" decodeStations [] =
      some (acts.getD []) := by
    unfold loadField
    rw [e_acts]
    cases acts with
    | none => rfl
    | some l => simp [decodeStations, decodeStrList_encode]
  -- assemble
  show State.load (JVal.obj data) = _
  unfold State.load
  dsimp only
  rw [hmig, h2, ← hd3, ← hd4, ← hd5, ← hd6, if_pos hall,
    f_dirs, f_sw, f_lc, f_lsc, f_id, f_acts]
  rfl

theorem dictGet_optEntry_ne (k : String) (v : Option JVal)
    (rest : List (String × JVal)) (k' : String) (h : k ≠ k') :
    dictGet (optEntry k v rest) k' = dictGet rest k' := by
  cases v <;> simp [optEntry, dictGet, h]

theorem dictGet_optEntry_self (k : String) (v : Option JVal)
    (rest : List (String × JVal)) (hrest : dictGet rest k = none) :
    dictGet (optEntry k v rest) k = v := by
  cases v <;> simp [optEntry, dictGet, hrest]

theorem mem_optEntry {p : String × JVal} {k : String} {v : Option JVal}
    {rest : List (String × JVal)} (hp : p ∈ optEntry k v rest) :
    p.1 = k ∨ p ∈ rest := by
  cases v with
  | none => exact Or.inr hp
  | some w =>
    rcases List.mem_cons.mp hp with h | h
    · exact Or.inl (by rw [h])
    · exact Or.inr h

theorem nodup_keys_optEntry (k : String) (v : Option JVal)
    (rest : List (String × JVal)) (hk : ∀ p ∈ rest, p.1 ≠ k)
    (hrest : (rest.map Prod.fst).Nodup) :
    ((optEntry k v rest).map Prod.fst).Nodup := by
  cases v with
  | none => exact hrest
  | some w =>
    simp only [optEntry, List.map_cons, List.nodup_cons]
    refine ⟨?_, hrest⟩
    intro hmem
    rcases List.mem_map.mp hmem with ⟨p, hp, hpk⟩
    exact hk p hp hpk

/-- C9: loading a state file that has the legacy `last_dir: X` field and no
`last_dirs` succeeds, yields `last_dirs = {"default": X}`, and fills every
field missing from the file with its default value instead of failing
(quantified over which of the five other fields are present, with arbitrary
well-typed values). -/
theorem State_load_legacy_migration (x : String)
    (lsw lc lsc idir : Option String) (acts : Option (List String)) :
    State.load (JVal.obj
      (("last_dir", JVal.str x) ::
        optEntry "last_switch" (lsw.map JVal.str)
          (optEntry "last_check" (lc.map JVal.str)
            (optEntry "last_server_check" (lsc.map JVal.str)
              (optEntry "image_dir" (idir.map JVal.str)
                (optEntry "active_stations"
                  (acts.map (fun l => JVal.arr (l.map JVal.str))) [])))))) =
      some { last_dirs := [("default", x)],
             last_switch := lsw.getD "",
             last_check := lc.getD "",
             last_server_check := lsc.getD "",
             image_dir := idir.getD "current",
             active_stations := acts.getD [] } := by
  set r5 := optEntry "active_stations"
    (acts.map (fun l => JVal.arr (l.map JVal.str))) [] with hr5
  set r4 := optEntry "image_dir" (idir.map JVal.str) r5 with hr4
  set r3 := optEntry "last_server_check" (lsc.map JVal.str) r4 with hr3
  set r2 := optEntry "last_check" (lc.map JVal.str) r3 with hr2
  set r1 := optEntry "last_switch" (lsw.map JVal.str) r2 with hr1
  have hcons (k : String) (h : "last_dir" ≠ k) :
      dictGet (("last_dir", JVal.str x) :: r1) k = dictGet r1 k := by
    simp [dictGet, h]
  -- membership characterizations
  have m5 : ∀ p ∈ r5, p.1 = "active_stations" := by
    intro p hp
    rcases mem_optEntry hp with h | h
    · exact h
    · simp at h
  have m4 : ∀ p ∈ r4, p.1 = "image_dir" ∨ p.1 = "active_stations" := by
    intro p hp
    rcases mem_optEntry hp with h | h
    · exact Or.inl h
    · exact Or.inr (m5 p h)
  have m3 : ∀ p ∈ r3, p.1 = "last_server_check" ∨ p.1 = "image_dir" ∨
      p.1 = "active_stations" := by
    intro p hp
    rcases mem_optEntry hp with h | h
    · exact Or.inl h
    · exact Or.inr (m4 p h)
  have m2 : ∀ p ∈ r2, p.1 = "last_check" ∨ p.1 = "last_server_check" ∨
      p.1 = "image_dir" ∨ p.1 = "active_stations" := by
    intro p hp
    rcases mem_optEntry hp with h | h
    · exact Or.inl h
    · exact Or.inr (m3 p h)
  have m1 : ∀ p ∈ r1, p.1 = "last_switch" ∨ p.1 = "last_check" ∨
      p.1 = "last_server_check" ∨ p.1 = "image_dir" ∨
      p.1 = "active_stations" := by
    intro p hp
    rcases mem_optEntry hp with h | h
    · exact Or.inl h
    · exact Or.inr (m2 p h)
  -- nodup keys
  have n5 : (r5.map Prod.fst).Nodup := by
    refine nodup_keys_optEntry _ _ _ ?_ List.nodup_nil
    intro p hp
    simp at hp
  have n4 : (r4.map Prod.fst).Nodup := by
    refine nodup_keys_optEntry _ _ _ ?_ n5
    intro p hp
    rw [m5 p hp]
    decide
  have n3 : (r3.map Prod.fst).Nodup := by
    refine nodup_keys_optEntry _ _ _ ?_ n4
    intro p hp
    rcases m4 p hp with h | h <;> rw [h] <;> decide
  have n2 : (r2.map Prod.fst).Nodup := by
    refine nodup_keys_optEntry _ _ _ ?_ n3
    intro p hp
    rcases m3 p hp with h | h | h <;> rw [h] <;> decide
  have n1 : (r1.map Prod.fst).Nodup := by
    refine nodup_keys_optEntry _ _ _ ?_ n2
    intro p hp
    rcases m2 p hp with h | h | h | h <;> rw [h] <;> decide
  have hnodup : ((("last_dir", JVal.str x) :: r1).map Prod.fst).Nodup := by
    simp only [List.map_cons, List.nodup_cons]
    refine ⟨?_, n1⟩
    intro hmem
    rcases List.mem_map.mp hmem with ⟨p, hp, hpk⟩
    rcases m1 p hp with h | h | h | h | h <;> rw [h] at hpk <;> simp at hpk
  -- allowed keys
  have hkeys : ∀ p ∈ ("last_dir", JVal.str x) :: r1,
      p.1 = "last_dir" ∨ p.1 ∈ State.fieldNames := by
    intro p hp
    rcases List.mem_cons.mp hp with h | h
    · exact Or.inl (by rw [h])
    · right
      rcases m1 p h with h1 | h1 | h1 | h1 | h1 <;> rw [h1] <;>
        simp [State.fieldNames]
  -- individual lookups
  have l5 : dictGet r5 "active_stations" =
      acts.map (fun l => JVal.arr (l.map JVal.str)) :=
    dictGet_optEntry_self _ _ _ rfl
  have l5none (k : String) (h : "active_stations" ≠ k) :
      dictGet r5 k = none := by
    rw [hr5, dictGet_optEntry_ne _ _ _ _ h]
    rfl
  have hx : dictGet (("last_dir", JVal.str x) :: r1) "last_dir" =
      some (JVal.str x) := by
    simp [dictGet]
  have hnd : dictGet (("last_dir", JVal.str x) :: r1) "last_dirs" = none := by
    rw [hcons _ (by decide), hr1, dictGet_optEntry_ne _ _ _ _ (by decide),
      hr2, dictGet_optEntry_ne _ _ _ _ (by decide),
      hr3, dictGet_optEntry_ne _ _ _ _ (by decide),
      hr4, dictGet_optEntry_ne _ _ _ _ (by decide),
      l5none _ (by decide)]
  have hsw : dictGet (("last_dir", JVal.str x) :: r1) "last_switch" =
      lsw.map JVal.str := by
    rw [hcons _ (by decide), hr1]
    refine dictGet_optEntry_self _ _ _ ?_
    rw [hr2, dictGet_optEntry_ne _ _ _ _ (by decide),
      hr3, dictGet_optEntry_ne _ _ _ _ (by decide),
      hr4, dictGet_optEntry_ne _ _ _ _ (by decide),
      l5none _ (by decide)]
  have hlc : dictGet (("last_dir", JVal.str x) :: r1) "last_check" =
      lc.map JVal.str := by
    rw [hcons _ (by decide), hr1, dictGet_optEntry_ne _ _ _ _ (by decide),
      hr2]
    refine dictGet_optEntry_self _ _ _ ?_
    rw [hr3, dictGet_optEntry_ne _ _ _ _ (by decide),
      hr4, dictGet_optEntry_ne _ _ _ _ (by decide),
      l5none _ (by decide)]
  have hlsc : dictGet (("last_dir", JVal.str x) :: r1) "last_server_check" =
      lsc.map JVal.str := by
    rw [hcons _ (by decide), hr1, dictGet_optEntry_ne _ _ _ _ (by decide),
      hr2, dictGet_optEntry_ne _ _ _ _ (by decide), hr3]
    refine dictGet_optEntry_self _ _ _ ?_
    rw [hr4, dictGet_optEntry_ne _ _ _ _ (by decide),
      l5none _ (by decide)]
  have hid : dictGet (("last_dir", JVal.str x) :: r1) "image_dir" =
      idir.map JVal.str := by
    rw [hcons _ (by decide), hr1, dictGet_optEntry_ne _ _ _ _ (by decide),
      hr2, dictGet_optEntry_ne _ _ _ _ (by decide),
      hr3, dictGet_optEntry_ne _ _ _ _ (by decide), hr4]
    refine dictGet_optEntry_self _ _ _ ?_
    exact l5none _ (by decide)
  have hacts : dictGet (("last_dir", JVal.str x) :: r1) "active_stations" =
      acts.map (fun l => JVal.arr (l.map JVal.str)) := by
    rw [hcons _ (by decide), hr1, dictGet_optEntry_ne _ _ _ _ (by decide),
      hr2, dictGet_optEntry_ne _ _ _ _ (by decide),
      hr3, dictGet_optEntry_ne _ _ _ _ (by decide),
      hr4, dictGet_optEntry_ne _ _ _ _ (by decide), l5]
  exact State_load_char _ x lsw lc lsc idir acts hnodup hkeys hx hnd hsw
    hlc hlsc hid hacts
/-- C4 counterexample: with reference timestamp on day 9 and today = day 10,
the code starts the walk at day 9 (`max(reference, yesterday)`), not at
day 10 (the later of yesterday and the day after the reference) as the claim
says; consequently a good night on day 10 is never inspected, although a
walk from the claimed start would return it. -/
theorem flgnStart_counterexample :
    flgnStart "9T0" { day := 10, sec := 0 } = 9 ∧
    flgnStartClaim "9T0" { day := 10, sec := 0 } = 10 ∧
    flgnStart "9T0" { day := 10, sec := 0 } ≠
      flgnStartClaim "9T0" { day := 10, sec := 0 } ∧
    find_last_good_night "9T0" oracleToday { day := 10, sec := 0 } = [] ∧
    flgnGo oracleToday (flgnStartClaim "9T0" { day := 10, sec := 0 }) 0
      MAX_DAYS_BACK = goodSnap := by
  refine ⟨by decide, by decide, by decide, by decide, ?_⟩
  have hstart : flgnStartClaim "9T0" { day := 10, sec := 0 } = 10 := by decide
  rw [hstart]
  simp only [MAX_DAYS_BACK, flgnGo, oracleToday, goodSnap, fitsCounts,
    is_good_night_eq, MIN_FITS_THRESHOLD]
  norm_num

/-- C4 (amended): with no (or an unparseable) reference timestamp the
backward search starts from yesterday; with a parseable reference it starts
from the later of yesterday and the reference date itself (not the day
after). -/
theorem flgnStart_characterization (lc : String) (now : PyDateTime)
    (f : ℤ → Snapshot) :
    (find_last_good_night lc f now =
      flgnGo f (flgnStart lc now) 0 MAX_DAYS_BACK) ∧
    (lc = "" → flgnStart lc now = now.day - 1) ∧
    (∀ d, fromisoformat lc = some d →
      flgnStart lc now = max d.day (now.day - 1)) ∧
    (fromisoformat lc = none → flgnStart lc now = now.day - 1) := by
  refine ⟨rfl, ?_, ?_, ?_⟩
  · intro h
    simp [flgnStart, h]
  · intro d hd
    by_cases h : lc = ""
    · rw [h, (by decide : fromisoformat "" = (none : Option PyDateTime))] at hd
      cases hd
    · simp [flgnStart, h, hd]
  · intro hd
    by_cases h : lc = ""
    · simp [flgnStart, h]
    · simp [flgnStart, h, hd]

theorem flgnStart_characterization_witness :
    flgnStart "" { day := 10, sec := 0 } = 9 ∧
    flgnStart "12T0" { day := 10, sec := 0 } = 12 ∧
    flgnStart "garbage" { day := 10, sec := 0 } = 9 := by
  refine ⟨?_, ?_, ?_⟩
  · exact (flgnStart_characterization "" { day := 10, sec := 0 }
      (fun _ => [])).2.1 rfl
  · have h := (flgnStart_characterization "12T0" { day := 10, sec := 0 }
      (fun _ => [])).2.2.1 { day := 12, sec := 0 } (by decide)
    rw [h]; decide
  · have h := (flgnStart_characterization "garbage" { day := 10, sec := 0 }
      (fun _ => [])).2.2.2 (by decide)
    rw [h]; decide
theorem flgnGo_congr (f g : ℤ → Snapshot) (start : ℤ) :
    ∀ (fuel daysBack : ℕ),
      (∀ k : ℕ, k < fuel → g (start - ((daysBack + k : ℕ) : ℤ)) =
        f (start - ((daysBack + k : ℕ) : ℤ))) →
      flgnGo g start daysBack fuel = flgnGo f start daysBack fuel := by
  intro fuel
  induction fuel with
  | zero => intro daysBack h; rfl
  | succ n ih =>
    intro daysBack h
    have h0 : g (start - (daysBack : ℤ)) = f (start - (daysBack : ℤ)) := by
      simpa using h 0 (Nat.succ_pos n)
    have hrec := ih (daysBack + 1) (fun k hk => by
      have := h (k + 1) (Nat.succ_lt_succ hk)
      simpa [Nat.add_assoc, Nat.add_comm, Nat.add_left_comm] using this)
    rw [flgnGo, flgnGo, h0, hrec]

theorem flgnGo_first_hit (f : ℤ → Snapshot) (start : ℤ) :
    ∀ (fuel daysBack : ℕ),
      ((∀ k : ℕ, k < fuel → flgnHitB f start (daysBack + k) = false) →
        flgnGo f start daysBack fuel = []) ∧
      (∀ k : ℕ, k < fuel → flgnHitB f start (daysBack + k) = true →
        (∀ j : ℕ, j < k → flgnHitB f start (daysBack + j) = false) →
        flgnGo f start daysBack fuel =
          f (start - ((daysBack + k : ℕ) : ℤ))) := by
  intro fuel
  induction fuel with
  | zero =>
    intro daysBack
    exact ⟨fun _ => rfl, fun k hk => absurd hk (Nat.not_lt_zero k)⟩
  | succ n ih =>
    intro daysBack
    by_cases hhit : flgnHitB f start daysBack = true
    · have hu := hhit
      unfold flgnHitB at hu
      rw [Bool.and_eq_true] at hu
      obtain ⟨hne, hgood⟩ := hu
      have h1 : (f (start - (daysBack : ℤ))).isEmpty = false := by
        simpa using hne
      have hgo : flgnGo f start daysBack (n + 1) =
          f (start - (daysBack : ℤ)) := by
        rw [flgnGo]
        simp [h1, hgood]
      constructor
      · intro hall
        exact absurd hhit (by simpa using hall 0 (Nat.succ_pos n))
      · intro k hk hks hmin
        have hk0 : k = 0 := by
          by_contra hne0
          have := hmin 0 (Nat.pos_of_ne_zero hne0)
          rw [Nat.add_zero] at this
          exact absurd hhit (by simp [this])
        subst hk0
        simpa using hgo
    · have hhitf : flgnHitB f start daysBack = false :=
        Bool.eq_false_iff.mpr hhit
      have hgo : flgnGo f start daysBack (n + 1) =
          flgnGo f start (daysBack + 1) n := by
        rw [flgnGo]
        cases hemp : (f (start - (daysBack : ℤ))).isEmpty with
        | true => simp [hemp]
        | false =>
          have hg : is_good_night (fitsCounts (f (start - (daysBack : ℤ)))) =
              false := by
            unfold flgnHitB at hhitf
            rw [hemp] at hhitf
            simpa using hhitf
          simp [hemp, hg]
      constructor
      · intro hall
        rw [hgo]
        refine (ih (daysBack + 1)).1 (fun k hk => ?_)
        have := hall (k + 1) (Nat.succ_lt_succ hk)
        simpa [Nat.add_assoc, Nat.add_comm, Nat.add_left_comm] using this
      · intro k hk hks hmin
        rcases Nat.eq_zero_or_pos k with hk0 | hkpos
        · subst hk0
          rw [Nat.add_zero] at hks
          exact absurd hks (by simp [hhitf])
        · obtain ⟨k', rfl⟩ :=
            Nat.exists_eq_succ_of_ne_zero (Nat.pos_iff_ne_zero.mp hkpos)
          rw [hgo]
          have hks' : flgnHitB f start (daysBack + 1 + k') = true := by
            simpa [Nat.add_assoc, Nat.add_comm, Nat.add_left_comm] using hks
          have hmin' : ∀ j : ℕ, j < k' →
              flgnHitB f start (daysBack + 1 + j) = false := by
            intro j hj
            have := hmin (j + 1) (by omega)
            simpa [Nat.add_assoc, Nat.add_comm, Nat.add_left_comm] using this
          have hres := (ih (daysBack + 1)).2 k' (by omega) hks' hmin'
          rw [hres]
          congr 2
          omega

/-- C5: from whatever start date it determines, `find_last_good_night`
inspects at most 30 consecutive dates walking backward (its result is
unchanged under any oracle that agrees on that 30-day window), skips dates
for which no station has data, returns the snapshot of the first (most
recent) inspected date whose counts the evaluator accepts without searching
further back, and returns the empty snapshot when no inspected date
passes. -/
theorem find_last_good_night_first_hit (f : ℤ → Snapshot) (lc : String)
    (now : PyDateTime) :
    (∀ g : ℤ → Snapshot,
      (∀ k : ℕ, k < 30 → g (flgnStart lc now - (k : ℤ)) =
        f (flgnStart lc now - (k : ℤ))) →
      find_last_good_night lc g now = find_last_good_night lc f now) ∧
    ((∀ k : ℕ, k < 30 → flgnHitB f (flgnStart lc now) k = false) →
      find_last_good_night lc f now = []) ∧
    (∀ k : ℕ, k < 30 → flgnHitB f (flgnStart lc now) k = true →
      (∀ j : ℕ, j < k → flgnHitB f (flgnStart lc now) j = false) →
      find_last_good_night lc f now = f (flgnStart lc now - (k : ℤ))) := by
  refine ⟨?_, ?_, ?_⟩
  · intro g hg
    unfold find_last_good_night MAX_DAYS_BACK
    exact flgnGo_congr f g (flgnStart lc now) 30 0
      (fun k hk => by simpa using hg k hk)
  · intro hall
    unfold find_last_good_night MAX_DAYS_BACK
    exact (flgnGo_first_hit f (flgnStart lc now) 30 0).1
      (fun k hk => by simpa using hall k hk)
  · intro k hk hks hmin
    unfold find_last_good_night MAX_DAYS_BACK
    have hres := (flgnGo_first_hit f (flgnStart lc now) 30 0).2 k hk
      (by simpa using hks) (fun j hj => by simpa using hmin j hj)
    simpa using hres

theorem find_last_good_night_first_hit_witness :
    find_last_good_night "" oracleT3 { day := 10, sec := 0 } = goodSnap := by
  have h := (find_last_good_night_first_hit oracleT3 ""
    { day := 10, sec := 0 }).2.2 3 (by decide)
    (by norm_num [flgnHitB, oracleT3, goodSnap, fitsCounts,
      is_good_night_eq, MIN_FITS_THRESHOLD, flgnStart])
    (by decide)
  rw [h]
  norm_num [flgnStart, oracleT3]
theorem fetchStep_current (rsyncOk : String → Bool) (acc : ℕ × Fs)
    (p : String × StationInfo) :
    (fetchStep rsyncOk acc p).2.current = acc.2.current := by
  unfold fetchStep
  cases h : rsyncOk p.1 <;> simp [h]

theorem fetchStaged_current (rsyncOk : String → Bool) (station_dirs : Snapshot)
    (fs : Fs) :
    (fetchStaged rsyncOk station_dirs fs).2.current = fs.current := by
  unfold fetchStaged
  have hgen : ∀ (l : Snapshot) (acc : ℕ × Fs),
      (l.foldl (fetchStep rsyncOk) acc).2.current = acc.2.current := by
    intro l
    induction l with
    | nil => intro acc; rfl
    | cons p rest ih =>
      intro acc
      rw [List.foldl_cons, ih, fetchStep_current]
  rw [hgen]
  rfl

/-- C8: in `fetch_latest_dirs_all_stations`, promotion of the staging slot to
the active slot happens iff the accumulated transferred capture-file count is
positive; when it happens it is exactly the three ordered steps — delete the
stale backup slot, rename the active slot to the backup slot, rename the
staging slot into the active slot (`switch_latest_dir`); with a zero total
the staging result is returned unpromoted and the prior active slot is
untouched. -/
theorem fetch_promotion_iff_total_pos (rsyncOk : String → Bool)
    (station_dirs : Snapshot) (fs : Fs) :
    ((fetch_latest_dirs_all_stations rsyncOk station_dirs fs).1 =
      (fetchStaged rsyncOk station_dirs fs).1) ∧
    (0 < (fetch_latest_dirs_all_stations rsyncOk station_dirs fs).1 →
      (fetch_latest_dirs_all_stations rsyncOk station_dirs fs).2 =
        promoteStaging (backupCurrent (rmStale
          (fetchStaged rsyncOk station_dirs fs).2))) ∧
    ((fetch_latest_dirs_all_stations rsyncOk station_dirs fs).1 = 0 →
      (fetch_latest_dirs_all_stations rsyncOk station_dirs fs).2 =
        (fetchStaged rsyncOk station_dirs fs).2 ∧
      (fetch_latest_dirs_all_stations rsyncOk station_dirs fs).2.current =
        fs.current) := by
  have hfetch : fetch_latest_dirs_all_stations rsyncOk station_dirs fs =
      if 0 < (fetchStaged rsyncOk station_dirs fs).1
      then ((fetchStaged rsyncOk station_dirs fs).1,
        switch_latest_dir (fetchStaged rsyncOk station_dirs fs).2)
      else fetchStaged rsyncOk station_dirs fs := rfl
  rw [hfetch]
  by_cases h : 0 < (fetchStaged rsyncOk station_dirs fs).1
  · rw [if_pos h]
    exact ⟨rfl, fun _ => rfl, fun h0 => absurd h (by omega)⟩
  · rw [if_neg h]
    exact ⟨rfl, fun hpos => absurd hpos h,
      fun _ => ⟨rfl, fetchStaged_current rsyncOk station_dirs fs⟩⟩

theorem fetch_promotion_iff_total_pos_witness :
    (fetch_latest_dirs_all_stations rsyncAll goodSnap fs0).2 =
      promoteStaging (backupCurrent (rmStale
        (fetchStaged rsyncAll goodSnap fs0).2)) ∧
    (fetch_latest_dirs_all_stations rsyncNone goodSnap fs0).2.current =
      fs0.current := by
  refine ⟨(fetch_promotion_iff_total_pos rsyncAll goodSnap fs0).2.1
    (by decide), ?_⟩
  exact ((fetch_promotion_iff_total_pos rsyncNone goodSnap fs0).2.2
    (by decide)).2
/-- C6: when the local hour is before the fixed threshold 9, or `last_check`
parses to a timestamp on the current calendar day, the check routine returns
false with no state change and no remote calls (`noEffects`); when the hour
is at or past 9 and `last_check` is empty or on an earlier calendar day, the
check passes the time gate and proceeds. -/
theorem check_time_and_run_time_gate (env : Env) (s : State) (fs : Fs) :
    (env.now.hour < 9 →
      check_time_and_run env s fs = (noEffects, some (false, s, fs))) ∧
    (∀ d, fromisoformat s.last_check = some d → d.day = env.now.day →
      check_time_and_run env s fs = (noEffects, some (false, s, fs))) ∧
    (9 ≤ env.now.hour →
      (s.last_check = "" ∨
        ∃ d, fromisoformat s.last_check = some d ∧ d.day < env.now.day) →
      (check_time_and_run env s fs).1.timeGatePassed = true) := by
  refine ⟨?_, ?_, ?_⟩
  · intro h
    simp only [check_time_and_run]
    rw [if_pos h]
  · intro d hd hday
    have hne : s.last_check ≠ "" := by
      intro h0
      rw [h0, (by decide : fromisoformat "" = (none : Option PyDateTime))]
        at hd
      cases hd
    have hupd : is_time_for_updating s.last_check env.now = some false := by
      unfold is_time_for_updating
      rw [if_neg hne, hd]
      simp [hday]
    simp only [check_time_and_run]
    by_cases h9 : env.now.hour < 9
    · rw [if_pos h9]
    · rw [if_neg h9, hupd]
      rfl
  · intro h9 hcase
    have hupd : is_time_for_updating s.last_check env.now = some true := by
      unfold is_time_for_updating
      rcases hcase with h | ⟨d, hd, hlt⟩
      · rw [if_pos h]
      · have hne : s.last_check ≠ "" := by
          intro h0
          rw [h0, (by decide : fromisoformat "" = (none : Option PyDateTime))]
            at hd
          cases hd
        rw [if_neg hne, hd]
        simp [Int.ne_of_lt hlt]
    simp only [check_time_and_run]
    rw [if_neg (not_lt.mpr h9), hupd]
    simp only [Bool.not_true, Bool.false_eq_true, if_false,
      decide_eq_true h9, Bool.true_and, if_true]
    cases hstc : is_time_for_server_check s.last_server_check env.now with
    | none => rfl
    | some stc => simp [apply_ite]

theorem check_time_and_run_time_gate_witness :
    check_time_and_run envEarly stateA fs0 =
      (noEffects, some (false, stateA, fs0)) ∧
    check_time_and_run envA stateToday fs0 =
      (noEffects, some (false, stateToday, fs0)) ∧
    (check_time_and_run envA stateYesterday fs0).1.timeGatePassed = true := by
  refine ⟨?_, ?_, ?_⟩
  · exact (check_time_and_run_time_gate envEarly stateA fs0).1 (by decide)
  · exact (check_time_and_run_time_gate envA stateToday fs0).2.1
      { day := 10, sec := 0 } (by decide) (by decide)
  · exact (check_time_and_run_time_gate envA stateYesterday fs0).2.2
      (by decide) (Or.inr ⟨{ day := 9, sec := 0 }, by decide, by decide⟩)

/-- C7: when the run reaches the availability probe and the probe fails, the
run is a no-op: `last_server_check` is stamped with the probe time, the state
is saved, the routine returns false, every other state field and the
filesystem are unchanged, and no remote directory or fetch calls are made. -/
theorem check_time_and_run_probe_failure_noop (env : Env) (s : State)
    (fs : Fs) (h9 : 9 ≤ env.now.hour)
    (hupd : is_time_for_updating s.last_check env.now = some true)
    (hstc : is_time_for_server_check s.last_server_check env.now = some true)
    (hserver : env.serverAvailable = false) :
    check_time_and_run env s fs =
      ({ timeGatePassed := true, probeAttempted := true, dirListing := false,
         fetchCalled := false, promoted := false, saved := true },
       some (false, { s with last_server_check := isoformat env.now }, fs)) := by
  simp only [check_time_and_run]
  rw [if_neg (not_lt.mpr h9), hupd]
  simp only [Bool.not_true, Bool.false_eq_true, if_false,
    decide_eq_true h9, Bool.true_and, if_true]
  rw [hstc]
  simp [hserver]

theorem check_time_and_run_probe_failure_noop_witness :
    check_time_and_run envProbeFail stateA fs0 =
      ({ timeGatePassed := true, probeAttempted := true, dirListing := false,
         fetchCalled := false, promoted := false, saved := true },
       some (false,
         { stateA with last_server_check := isoformat envProbeFail.now },
         fs0)) := by
  exact check_time_and_run_probe_failure_noop envProbeFail stateA fs0
    (by decide) (by decide) (by decide) rfl

theorem candidateSnapshot_probe_state (env : Env) (s : State) (stc : Bool)
    (v : String) :
    candidateSnapshot env
      (if stc = true then { s with last_server_check := v } else s) =
      candidateSnapshot env s := by
  split <;> rfl

theorem stateIf_last_dirs (stc : Bool) (s : State) (v : String) :
    (if stc = true then { s with last_server_check := v } else s).last_dirs =
      s.last_dirs := by
  split <;> rfl

theorem stateIf_active (stc : Bool) (s : State) (v : String) :
    (if stc = true then
      { s with last_server_check := v } else s).active_stations =
      s.active_stations := by
  split <;> rfl

/-- C2: whenever a check reaches the decision point (time gates passed and
the server available or the probe skipped), a fetch is performed iff the
candidate snapshot has novelty (some station's directory differs from its
`last_dirs` entry) and the evaluator accepts its counts, or `active_stations`
is empty (first-run override, bypassing both gates). -/
theorem check_time_and_run_fetch_decision (env : Env) (s : State) (fs : Fs)
    (stc : Bool) (h9 : 9 ≤ env.now.hour)
    (hupd : is_time_for_updating s.last_check env.now = some true)
    (hstc : is_time_for_server_check s.last_server_check env.now = some stc)
    (hserver : stc = true → env.serverAvailable = true) :
    ((check_time_and_run env s fs).1.fetchCalled = true ↔
      ((noveltyB env s = true ∧ qualityB env s = true) ∨
        s.active_stations = [])) := by
  have hsrv : (if stc = true then env.serverAvailable else true) = true := by
    cases stc
    · rfl
    · simpa using hserver rfl
  simp only [check_time_and_run]
  rw [if_neg (not_lt.mpr h9), hupd]
  simp only [Bool.not_true, Bool.false_eq_true, if_false,
    decide_eq_true h9, Bool.true_and, if_true]
  rw [hstc]
  dsimp only
  rw [if_pos hsrv]
  simp only [noveltyB, qualityB, candidateSnapshot_probe_state,
    stateIf_last_dirs, stateIf_active]
  split
  case isTrue h =>
    simp only [Bool.or_eq_true, Bool.and_eq_true, List.isEmpty_iff] at h
    exact iff_of_true rfl h
  case isFalse h =>
    simp only [Bool.or_eq_true, Bool.and_eq_true, List.isEmpty_iff] at h
    exact iff_of_false (by simp) h

/-- C1 (amended): the check routine returns true iff a fetch was performed
with both novelty and quality satisfied (equivalently, iff novelty and
quality both held, which always triggers a fetch); a true return does not
guarantee promotion — that additionally needs a positive transferred total —
and a first-run fetch without novelty and quality never returns true. -/
theorem check_time_and_run_return_iff (env : Env) (s : State) (fs : Fs)
    (ret : Bool) (s' : State) (fs' : Fs)
    (hrun : (check_time_and_run env s fs).2 = some (ret, s', fs')) :
    (ret = true ↔ ((check_time_and_run env s fs).1.fetchCalled = true ∧
      noveltyB env s = true ∧ qualityB env s = true)) := by
  simp only [check_time_and_run] at hrun ⊢
  by_cases h9 : env.now.hour < 9
  · rw [if_pos h9] at hrun ⊢
    simp only [Option.some.injEq, Prod.mk.injEq] at hrun
    obtain ⟨h1, -, -⟩ := hrun
    subst h1
    simp [noEffects]
  · rw [if_neg h9] at hrun ⊢
    have h9' : 9 ≤ env.now.hour := le_of_not_lt h9
    cases hu : is_time_for_updating s.last_check env.now with
    | none =>
      rw [hu] at hrun
      simp at hrun
    | some upd =>
      rw [hu] at hrun
      cases upd with
      | false =>
        dsimp only at hrun ⊢
        simp only [Bool.not_false, eq_self_iff_true, if_true,
          Option.some.injEq, Prod.mk.injEq] at hrun ⊢
        obtain ⟨h1, -, -⟩ := hrun
        subst h1
        simp [noEffects]
      | true =>
        dsimp only at hrun ⊢
        simp only [Bool.not_true, Bool.false_eq_true, if_false, Bool.and_true,
          decide_eq_true h9', eq_self_iff_true, if_true] at hrun ⊢
        cases hstc : is_time_for_server_check s.last_server_check env.now with
        | none =>
          rw [hstc] at hrun
          simp at hrun
        | some stc =>
          rw [hstc] at hrun
          dsimp only at hrun ⊢
          by_cases hsrv : (if stc = true then env.serverAvailable else true) =
              true
          · rw [if_pos hsrv] at hrun ⊢
            simp only [noveltyB, qualityB, candidateSnapshot_probe_state,
              stateIf_last_dirs, stateIf_active] at hrun ⊢
            split at hrun
            next hsf =>
              rw [if_pos hsf]
              simp only [Option.some.injEq, Prod.mk.injEq] at hrun
              obtain ⟨h1, -, -⟩ := hrun
              subst h1
              simp [Bool.and_eq_true]
            next hsf =>
              rw [if_neg hsf]
              simp only [Option.some.injEq, Prod.mk.injEq] at hrun
              obtain ⟨h1, -, -⟩ := hrun
              subst h1
              constructor
              · intro h
                exact absurd (by simp [h]) hsf
              · rintro ⟨hfc, -⟩
                cases hfc
          · rw [if_neg hsrv] at hrun ⊢
            simp only [Option.some.injEq, Prod.mk.injEq] at hrun
            obtain ⟨h1, -, -⟩ := hrun
            subst h1
            simp

/-- Full evaluation of the check routine in the `envC1`/`stateC1` scenario:
first run, good new candidate night, every rsync fails. -/
theorem check_run_envC1_eval :
    check_time_and_run envC1 stateC1 fs0 =
      ({ timeGatePassed := true, probeAttempted := true, dirListing := true,
         fetchCalled := true, promoted := false, saved := true },
       some (true,
         { last_dirs := [("BE000D", "BE000D_20250804")],
           last_switch := isoformat envC1.now,
           last_check := isoformat envC1.now,
           last_server_check := isoformat envC1.now,
           image_dir := "current",
           active_stations := ["BE000D"] },
         { latest := some [("BE000D", none)],
           current := some [("BE000D", some "prev")],
           current_old := none })) := by
  have hgood : is_good_night (fitsCounts goodSnap) = true := by
    rw [is_good_night_eq]
    decide
  have hf : find_last_good_night "" envC1.dirsForDate envC1.now =
      goodSnap := by
    have hstart : flgnStart "" envC1.now = 9 := by decide
    unfold find_last_good_night MAX_DAYS_BACK
    rw [hstart, flgnGo]
    have h0 : envC1.dirsForDate (9 - ((0 : ℕ) : ℤ)) = goodSnap := by decide
    rw [h0]
    simp [hgood, (by decide : goodSnap.isEmpty = false)]
  have hcandv : ∀ v : String, candidateSnapshot envC1
      { last_dirs := [("BE000D", "old")], last_switch := "",
        last_check := "", last_server_check := v, image_dir := "current",
        active_stations := [] } = goodSnap := by
    intro v
    unfold candidateSnapshot
    dsimp only
    rw [hf]
    decide
  simp only [check_time_and_run]
  rw [if_neg (by decide : ¬(envC1.now.hour < 9))]
  rw [(by decide : is_time_for_updating stateC1.last_check envC1.now =
    some true)]
  dsimp only
  simp only [Bool.not_true, Bool.false_eq_true, if_false, Bool.and_true,
    decide_eq_true (by decide : 9 ≤ envC1.now.hour), eq_self_iff_true,
    if_true]
  rw [(by decide : is_time_for_server_check stateC1.last_server_check
    envC1.now = some true)]
  dsimp only
  rw [if_pos (by decide : (if (true : Bool) = true
    then envC1.serverAvailable else true) = true)]
  simp only [if_true, stateC1, hcandv, hgood]
  decide

/-- C1 counterexample: a first run (empty `active_stations`) where the
candidate snapshot has novelty and quality but every rsync fails — the
routine performs a fetch, promotes nothing (zero transferred files, active
slot untouched), yet still returns true.  This refutes "true iff a fetch was
performed and promoted", and also the clause that a first-run fetch counts
toward a true return only if it ends with real data. -/
theorem check_time_and_run_promotionless_true_return :
    (check_time_and_run envC1 stateC1 fs0).2.map (fun t => t.1) = some true ∧
    (check_time_and_run envC1 stateC1 fs0).1.fetchCalled = true ∧
    (check_time_and_run envC1 stateC1 fs0).1.promoted = false ∧
    (check_time_and_run envC1 stateC1 fs0).2.map (fun t => t.2.2.current) =
      some fs0.current := by
  rw [check_run_envC1_eval]
  exact ⟨rfl, rfl, rfl, rfl⟩

theorem check_time_and_run_return_iff_witness :
    noveltyB envC1 stateC1 = true ∧ qualityB envC1 stateC1 = true ∧
    (check_time_and_run envC1 stateC1 fs0).1.fetchCalled = true := by
  have h := check_time_and_run_return_iff envC1 stateC1 fs0 true _ _
    (by rw [check_run_envC1_eval])
  obtain ⟨hfc, hn, hq⟩ := h.mp rfl
  exact ⟨hn, hq, hfc⟩

theorem check_time_and_run_fetch_decision_witness :
    (check_time_and_run envC1 stateC1 fs0).1.fetchCalled = true := by
  exact (check_time_and_run_fetch_decision envC1 stateC1 fs0 true
    (by decide) (by decide) (by decide) (fun _ => rfl)).mpr (Or.inr rfl)
